import Mathlib

/-!
Shallow embedding of `toonapilib/helpers.py`: the `Switch` / `SmartPlug` /
`Light` device hierarchy built on a cached status snapshot supplied by an
external Toon session object.

JSON scalar values are modelled by `Value`, snapshot device entries by
association lists, and the session by a record holding the API url, headers
and the cached snapshot.  Stateful Python attribute mutation (the lazily
memoized identifier fields) is modelled by explicit state passing: each
property accessor returns its value together with the updated device record
and a flag recording whether the access performed a snapshot lookup.  The
HTTP and logging side effects of `_change_state` are modelled as an explicit
effect trace.
-/

set_option autoImplicit false

namespace Toonapilib

/-- A JSON scalar value as it occurs in the snapshot document. -/
inductive Value where
  | vInt : Int → Value
  | vStr : String → Value
  | vBool : Bool → Value
deriving DecidableEq, Repr

/-- Python truthiness of a scalar value. -/
def Value.truthy : Value → Bool
  | .vInt n => n != 0
  | .vStr s => s != ""
  | .vBool b => b

/-- Python truthiness of an optional value (`None` is falsy). -/
def truthyOpt : Option Value → Bool
  | none => false
  | some v => v.truthy

/-- `str(x)` on an optional scalar, as used by `'...{id}'.format(...)`. -/
def pyStr : Option Value → String
  | none => "None"
  | some (.vInt n) => toString n
  | some (.vStr s) => s
  | some (.vBool b) => if b then "True" else "False"

/-- One device entry of a snapshot collection: a JSON object, modelled as an
association list of field name / value pairs. -/
abbrev Entry := List (String × Value)

/-- `item.get(k)`: the value of the first field named `k`, or `None`. -/
def Entry.get (e : Entry) (k : String) : Option Value :=
  (e.find? (fun p => p.1 == k)).map Prod.snd

/-- `data[k] = v` on a JSON object: replace the field if present, else append. -/
def Entry.set (e : Entry) (k : String) (v : Value) : Entry :=
  match e with
  | [] => [(k, v)]
  | (k', v') :: rest => if k' == k then (k, v) :: rest else (k', v') :: Entry.set rest k v

/-- The session's cached status snapshot: the two device collections
`deviceStatusInfo.device` and `deviceConfigInfo.device`. -/
structure Snapshot where
  statusDevices : List Entry
  configDevices : List Entry
deriving DecidableEq, Repr

/-- `self.toon.status.get(key).get('device')` with
`key = 'deviceConfigInfo' if config else 'deviceStatusInfo'`. -/
def Snapshot.devices (snap : Snapshot) (config : Bool) : List Entry :=
  if config then snap.configDevices else snap.statusDevices

/-- The first entry of the chosen collection whose `name` field equals the
device name (the generator filter of `_get_value`). -/
def findDevice (snap : Snapshot) (config : Bool) (name : String) : Option Entry :=
  (snap.devices config).find? (fun item => item.get "name" == some (.vStr name))

/-- `Switch._get_value(name, config)`: field `field` of the first entry named
`name` in the chosen collection, `None` if no entry matches or the field is
missing. -/
def getValue (snap : Snapshot) (name : String) (field : String) (config : Bool) : Option Value :=
  match findDevice snap config name with
  | none => none
  | some item => item.get field

/-- The external Toon session collaborator: `_api_url`, `_headers` and the
cached `status` snapshot. -/
structure ToonSession where
  apiUrl : String
  headers : List (String × String)
  status : Snapshot
deriving DecidableEq, Repr

/-- A `Switch` device: its name and the four lazily memoized attributes
(`_device_type`, `_zwave_index`, `_zwave_uuid`, `_device_uuid`), each
initialised to `None` by `__init__`. -/
structure Switch where
  name : String
  memo_device_type : Option Value
  memo_zwave_index : Option Value
  memo_zwave_uuid : Option Value
  memo_device_uuid : Option Value
deriving DecidableEq, Repr

/-- `Switch.__init__(toon_instance, name)`: all memo attributes start `None`. -/
def Switch.init (name : String) : Switch :=
  ⟨name, none, none, none, none⟩

/-- An observable side effect of the write path. -/
inductive Effect where
  | httpGet : String → List (String × String) → Effect
  | httpPut : String → List (String × String) → Entry → Effect
  | logWarning : String → Effect
  | logDebug : String → Effect
  | clearCache : Effect
deriving DecidableEq, Repr

/-- The HTTP response of the PUT call (only its content is ever consumed,
for the debug log line). -/
structure HttpResponse where
  statusCode : Nat
  content : String
deriving DecidableEq, Repr

/-- The argument of `_change_state` at its call sites: a Python bool
(from `toggle`) or int (from `turn_on` / `turn_off`). -/
inductive StateArg where
  | ofBool : Bool → StateArg
  | ofInt : Int → StateArg
deriving DecidableEq, Repr

/-- `int(state)` on the state argument. -/
def StateArg.toInt : StateArg → Int
  | .ofBool b => if b then 1 else 0
  | .ofInt n => n

namespace Switch

/-- `is_connected`: `True if value else False` for status field `isConnected`. -/
def is_connected (sw : Switch) (snap : Snapshot) : Bool :=
  truthyOpt (getValue snap sw.name "isConnected" false)

/-- `is_locked`: `True if value else False` for config field `switchLocked`. -/
def is_locked (sw : Switch) (snap : Snapshot) : Bool :=
  truthyOpt (getValue snap sw.name "switchLocked" true)

/-- `can_toggle`: `False if not self.is_connected or self.is_locked else True`. -/
def can_toggle (sw : Switch) (snap : Snapshot) : Bool :=
  if !(sw.is_connected snap) || sw.is_locked snap then false else true

/-- `current_state`: raw status field `currentState`. -/
def current_state (sw : Switch) (snap : Snapshot) : Option Value :=
  getValue snap sw.name "currentState" false

/-- `status`: `'on' if self.current_state else 'off'`. -/
def status (sw : Switch) (snap : Snapshot) : String :=
  if truthyOpt (sw.current_state snap) then "on" else "off"

/-- `in_switch_all_group`: `True if value else False` for config `inSwitchAll`. -/
def in_switch_all_group (sw : Switch) (snap : Snapshot) : Bool :=
  truthyOpt (getValue snap sw.name "inSwitchAll" true)

/-- `in_switch_schedule`: `True if value else False` for config `inSwitchSchedule`. -/
def in_switch_schedule (sw : Switch) (snap : Snapshot) : Bool :=
  truthyOpt (getValue snap sw.name "inSwitchSchedule" true)

/-- `device_uuid`: lazily memoized status field `devUUID`, guarded by the
truthiness of the memo attribute (`if not self._device_uuid`).  Returns the
value, the updated device and whether a snapshot lookup happened. -/
def device_uuid (sw : Switch) (snap : Snapshot) : Option Value × Switch × Bool :=
  if truthyOpt sw.memo_device_uuid = false then
    let v := getValue snap sw.name "devUUID" false
    (v, { sw with memo_device_uuid := v }, true)
  else
    (sw.memo_device_uuid, sw, false)

/-- `device_type`: lazily memoized config field `devType`. -/
def device_type (sw : Switch) (snap : Snapshot) : Option Value × Switch × Bool :=
  if truthyOpt sw.memo_device_type = false then
    let v := getValue snap sw.name "devType" true
    (v, { sw with memo_device_type := v }, true)
  else
    (sw.memo_device_type, sw, false)

/-- `zwave_index`: lazily memoized config field `position`. -/
def zwave_index (sw : Switch) (snap : Snapshot) : Option Value × Switch × Bool :=
  if truthyOpt sw.memo_zwave_index = false then
    let v := getValue snap sw.name "position" true
    (v, { sw with memo_zwave_index := v }, true)
  else
    (sw.memo_zwave_index, sw, false)

/-- `zwave_uuid`: lazily memoized config field `zwUuid`. -/
def zwave_uuid (sw : Switch) (snap : Snapshot) : Option Value × Switch × Bool :=
  if truthyOpt sw.memo_zwave_uuid = false then
    let v := getValue snap sw.name "zwUuid" true
    (v, { sw with memo_zwave_uuid := v }, true)
  else
    (sw.memo_zwave_uuid, sw, false)

/-- The warning text logged when `can_toggle` is false. -/
def lockedWarning : String :=
  "The item is not connected or locked, cannot change state."

/-- `_change_state(state)`.  `getResp` is the JSON body of the GET response
and `putResp` the PUT response, both supplied by the external HTTP service.
Returns the boolean result, the effect trace in order, and the updated
device record. -/
def change_state (sw : Switch) (toon : ToonSession) (getResp : Entry)
    (putResp : HttpResponse) (state : StateArg) : Bool × List Effect × Switch :=
  if sw.can_toggle toon.status = false then
    (false, [Effect.logWarning lockedWarning], sw)
  else
    let r := sw.device_uuid toon.status
    let url := toon.apiUrl ++ "/devices/" ++ pyStr r.1
    let data := getResp.set "currentState" (.vInt state.toInt)
    (true,
     [Effect.httpGet url toon.headers,
      Effect.httpPut url toon.headers data,
      Effect.logDebug ("Response received " ++ putResp.content),
      Effect.clearCache],
     r.2.1)

/-- `toggle()`: `self._change_state(not self.current_state)`. -/
def toggle (sw : Switch) (toon : ToonSession) (getResp : Entry)
    (putResp : HttpResponse) : Bool × List Effect × Switch :=
  sw.change_state toon getResp putResp (.ofBool (!truthyOpt (sw.current_state toon.status)))

/-- `turn_on()`: `self._change_state(1)`. -/
def turn_on (sw : Switch) (toon : ToonSession) (getResp : Entry)
    (putResp : HttpResponse) : Bool × List Effect × Switch :=
  sw.change_state toon getResp putResp (.ofInt 1)

/-- `turn_off()`: `self._change_state(0)`. -/
def turn_off (sw : Switch) (toon : ToonSession) (getResp : Entry)
    (putResp : HttpResponse) : Bool × List Effect × Switch :=
  sw.change_state toon getResp putResp (.ofInt 0)

end Switch

/-- A `SmartPlug` device: a `Switch` plus the lazily memoized
`_usage_capable` attribute, which `__init__` sets to `None`. -/
structure SmartPlug extends Switch where
  memo_usage_capable : Option Bool
deriving DecidableEq, Repr

/-- `SmartPlug.__init__`: switch initialisation plus `_usage_capable = None`. -/
def SmartPlug.init (name : String) : SmartPlug :=
  ⟨Switch.init name, none⟩

namespace SmartPlug

/-- `usage_capable`: memoized under an `is None` check (unlike the switch
identifiers, a computed `False` is remembered). -/
def usage_capable (sp : SmartPlug) (snap : Snapshot) : Bool × SmartPlug × Bool :=
  match sp.memo_usage_capable with
  | none =>
      let v := getValue snap sp.name "usageCapable" true
      let b := truthyOpt v
      (b, { sp with memo_usage_capable := some b }, true)
  | some b => (b, sp, false)

/-- `average_usage`: `self._get_value('avgUsage') if self.usage_capable else 0`. -/
def average_usage (sp : SmartPlug) (snap : Snapshot) : Option Value × SmartPlug :=
  let r := sp.usage_capable snap
  if r.1 then (getValue snap sp.name "avgUsage" false, r.2.1)
  else (some (.vInt 0), r.2.1)

/-- `current_usage`: `self._get_value('currentUsage') if self.usage_capable else 0`. -/
def current_usage (sp : SmartPlug) (snap : Snapshot) : Option Value × SmartPlug :=
  let r := sp.usage_capable snap
  if r.1 then (getValue snap sp.name "currentUsage" false, r.2.1)
  else (some (.vInt 0), r.2.1)

/-- `daily_usage`: `self._get_value('dayUsage') if self.usage_capable else 0`. -/
def daily_usage (sp : SmartPlug) (snap : Snapshot) : Option Value × SmartPlug :=
  let r := sp.usage_capable snap
  if r.1 then (getValue snap sp.name "dayUsage" false, r.2.1)
  else (some (.vInt 0), r.2.1)

/-- `network_health_state`: raw status field `networkHealthState`. -/
def network_health_state (sp : SmartPlug) (snap : Snapshot) : Option Value :=
  getValue snap sp.name "networkHealthState" false

/-- `quantity_graph_uuid`: raw config field `quantityGraphUuid`. -/
def quantity_graph_uuid (sp : SmartPlug) (snap : Snapshot) : Option Value :=
  getValue snap sp.name "quantityGraphUuid" true

/-- `flow_graph_uuid`: raw config field `flowGraphUuid`. -/
def flow_graph_uuid (sp : SmartPlug) (snap : Snapshot) : Option Value :=
  getValue snap sp.name "flowGraphUuid" true

end SmartPlug

/-- A `Light` device: a `Switch` with one extra read-only property. -/
structure Light extends Switch
deriving DecidableEq, Repr

/-- `rgb_color`: raw status field `rgbColor`. -/
def Light.rgb_color (l : Light) (snap : Snapshot) : Option Value :=
  getValue snap l.name "rgbColor" false

end Toonapilib

namespace Toonapilib

/-! ## Sample data used by witnesses and counterexamples -/

/-- A connected, unlocked sample device entry in the status collection. -/
def sampleStatusEntry : Entry :=
  [("name", .vStr "plug1"), ("isConnected", .vInt 1),
   ("currentState", .vInt 0), ("devUUID", .vStr "uuid-1")]

/-- The matching config entry for the sample device. -/
def sampleConfigEntry : Entry :=
  [("name", .vStr "plug1"), ("switchLocked", .vInt 0), ("position", .vInt 3)]

/-- A sample snapshot holding only the sample device. -/
def sampleSnap : Snapshot := ⟨[sampleStatusEntry], [sampleConfigEntry]⟩

/-- A sample session over the sample snapshot. -/
def sampleToon : ToonSession :=
  ⟨"https://api.example", [("Authorization", "Bearer t")], sampleSnap⟩

/-- A freshly constructed switch for the sample device. -/
def sampleSw : Switch := Switch.init "plug1"

/-- A sample GET response body for the sample device. -/
def sampleGetResp : Entry := [("devUUID", .vStr "uuid-1"), ("currentState", .vInt 0)]

/-- A sample successful PUT response. -/
def samplePutResp : HttpResponse := ⟨200, "ok"⟩

/-! ## Claims -/

/-- C3: for every switch and snapshot, `can_toggle` is true iff
`is_connected` is true and `is_locked` is false; the equality of booleans
covers all four combinations. -/
theorem can_toggle_iff_connected_and_not_locked (sw : Switch) (snap : Snapshot) :
    sw.can_toggle snap = (sw.is_connected snap && !(sw.is_locked snap)) := by
  unfold Switch.can_toggle
  cases h1 : sw.is_connected snap <;> cases h2 : sw.is_locked snap <;> simp

/-- C2: when `can_toggle` is false, `_change_state` returns `False`, its only
effect is the warning log line — no HTTP call, no cache invalidation — and
the device record is unchanged (and, being total, it raises no exception). -/
theorem change_state_blocked_no_effects (sw : Switch) (toon : ToonSession) (getResp : Entry)
    (putResp : HttpResponse) (state : StateArg)
    (h : sw.can_toggle toon.status = false) :
    sw.change_state toon getResp putResp state =
      (false, [Effect.logWarning Switch.lockedWarning], sw) := by
  unfold Switch.change_state
  rw [h]
  rfl

/-- Witness for C2: a device absent from the snapshot cannot toggle, and
`_change_state` only logs the warning and returns `False`. -/
theorem change_state_blocked_no_effects_witness :
    (Switch.init "ghost").can_toggle sampleToon.status = false ∧
    (Switch.init "ghost").change_state sampleToon sampleGetResp samplePutResp (.ofInt 1) =
      (false, [Effect.logWarning Switch.lockedWarning], Switch.init "ghost") :=
  ⟨by decide,
   change_state_blocked_no_effects (Switch.init "ghost") sampleToon sampleGetResp
     samplePutResp (.ofInt 1) (by decide)⟩

/-- `_change_state` depends on its argument only through `int(state)`. -/
theorem change_state_toInt_eq (sw : Switch) (toon : ToonSession) (getResp : Entry)
    (putResp : HttpResponse) {s t : StateArg} (h : s.toInt = t.toInt) :
    sw.change_state toon getResp putResp s = sw.change_state toon getResp putResp t := by
  unfold Switch.change_state
  rw [h]

/-- C7: `toggle()` equals `_change_state(not current_state)` — hence equals
`_change_state` at integer `0` when `current_state` is truthy (in particular
when it is `1`) and at `1` otherwise — and `turn_on()` / `turn_off()` equal
`_change_state(1)` / `_change_state(0)`. -/
theorem toggle_turn_on_turn_off_equiv (sw : Switch) (toon : ToonSession) (getResp : Entry)
    (putResp : HttpResponse) :
    sw.toggle toon getResp putResp =
      sw.change_state toon getResp putResp
        (.ofBool (!truthyOpt (sw.current_state toon.status)))
    ∧ sw.toggle toon getResp putResp =
      sw.change_state toon getResp putResp
        (.ofInt (if truthyOpt (sw.current_state toon.status) then 0 else 1))
    ∧ sw.turn_on toon getResp putResp = sw.change_state toon getResp putResp (.ofInt 1)
    ∧ sw.turn_off toon getResp putResp = sw.change_state toon getResp putResp (.ofInt 0) := by
  refine ⟨rfl, ?_, rfl, rfl⟩
  unfold Switch.toggle
  apply change_state_toInt_eq
  cases h : truthyOpt (sw.current_state toon.status) <;> simp [StateArg.toInt]

/-- C9: the `status` property is the string `"on"` exactly when the raw
`currentState` status value is truthy, and `"off"` exactly when it is not. -/
theorem status_on_off_characterisation (sw : Switch) (snap : Snapshot) :
    (sw.status snap = "on" ↔ truthyOpt (getValue snap sw.name "currentState" false) = true)
    ∧ (sw.status snap = "off" ↔ truthyOpt (getValue snap sw.name "currentState" false) = false) := by
  unfold Switch.status Switch.current_state
  cases h : truthyOpt (getValue snap sw.name "currentState" false) <;> simp

end Toonapilib

namespace Toonapilib

/-- C1: when `can_toggle` is true, `_change_state` produces exactly the trace
GET `{api_url}/devices/{device_uuid}` then PUT to the same url whose body is
the GET body with `currentState` replaced by `int(state)`, then the debug log,
then exactly one cache invalidation, and returns `True`. -/
theorem change_state_allowed_get_put_trace (sw : Switch) (toon : ToonSession) (getResp : Entry)
    (putResp : HttpResponse) (state : StateArg)
    (h : sw.can_toggle toon.status = true) :
    sw.change_state toon getResp putResp state =
      (true,
       [Effect.httpGet (toon.apiUrl ++ "/devices/" ++ pyStr (sw.device_uuid toon.status).1)
          toon.headers,
        Effect.httpPut (toon.apiUrl ++ "/devices/" ++ pyStr (sw.device_uuid toon.status).1)
          toon.headers (getResp.set "currentState" (.vInt state.toInt)),
        Effect.logDebug ("Response received " ++ putResp.content),
        Effect.clearCache],
       (sw.device_uuid toon.status).2.1) := by
  unfold Switch.change_state
  rw [h]
  rfl

/-- Witness for C1: the sample device is connected and unlocked, and
`_change_state(1)` issues the GET / PUT / debug-log / cache-clear trace. -/
theorem change_state_allowed_get_put_trace_witness :
    sampleSw.can_toggle sampleToon.status = true ∧
    sampleSw.change_state sampleToon sampleGetResp samplePutResp (.ofInt 1) =
      (true,
       [Effect.httpGet (sampleToon.apiUrl ++ "/devices/" ++
          pyStr (sampleSw.device_uuid sampleToon.status).1) sampleToon.headers,
        Effect.httpPut (sampleToon.apiUrl ++ "/devices/" ++
          pyStr (sampleSw.device_uuid sampleToon.status).1) sampleToon.headers
          (sampleGetResp.set "currentState" (.vInt (StateArg.ofInt 1).toInt)),
        Effect.logDebug ("Response received " ++ samplePutResp.content),
        Effect.clearCache],
       (sampleSw.device_uuid sampleToon.status).2.1) :=
  ⟨by decide,
   change_state_allowed_get_put_trace sampleSw sampleToon sampleGetResp samplePutResp
     (.ofInt 1) (by decide)⟩

/-- The number of cache invalidations in an effect trace. -/
def countClearCache (l : List Effect) : Nat :=
  l.countP (fun e => match e with | .clearCache => true | _ => false)

/-- C6: when `can_toggle` is true, `_change_state` returns `True` for every
possible PUT response — a failed write is reported as success — and the
cache is invalidated exactly once all the same. -/
theorem change_state_ignores_put_response (sw : Switch) (toon : ToonSession) (getResp : Entry)
    (putResp : HttpResponse) (state : StateArg)
    (h : sw.can_toggle toon.status = true) :
    (sw.change_state toon getResp putResp state).1 = true ∧
    countClearCache (sw.change_state toon getResp putResp state).2.1 = 1 := by
  unfold Switch.change_state
  rw [h]
  exact ⟨rfl, rfl⟩

/-- Witness for C6: even for a PUT that failed with status 500, the sample
call returns `True` and clears the cache once. -/
theorem change_state_ignores_put_response_witness :
    sampleSw.can_toggle sampleToon.status = true ∧
    ((sampleSw.change_state sampleToon sampleGetResp ⟨500, "Internal Server Error"⟩
        (.ofInt 0)).1 = true ∧
     countClearCache (sampleSw.change_state sampleToon sampleGetResp
        ⟨500, "Internal Server Error"⟩ (.ofInt 0)).2.1 = 1) :=
  ⟨by decide,
   change_state_ignores_put_response sampleSw sampleToon sampleGetResp
     ⟨500, "Internal Server Error"⟩ (.ofInt 0) (by decide)⟩

/-- C8: each usage reading equals the raw status field when `usage_capable`
is true and the constant `0` when it is false, with the state threaded
through the memoizing `usage_capable` access. -/
theorem smart_plug_usage_gated_by_capability (sp : SmartPlug) (snap : Snapshot) :
    sp.average_usage snap =
      ((if (sp.usage_capable snap).1 then getValue snap sp.name "avgUsage" false
        else some (Value.vInt 0)), (sp.usage_capable snap).2.1)
    ∧ sp.current_usage snap =
      ((if (sp.usage_capable snap).1 then getValue snap sp.name "currentUsage" false
        else some (Value.vInt 0)), (sp.usage_capable snap).2.1)
    ∧ sp.daily_usage snap =
      ((if (sp.usage_capable snap).1 then getValue snap sp.name "dayUsage" false
        else some (Value.vInt 0)), (sp.usage_capable snap).2.1) := by
  unfold SmartPlug.average_usage SmartPlug.current_usage SmartPlug.daily_usage
  cases h : (sp.usage_capable snap).1 <;> simp [h]

end Toonapilib

namespace Toonapilib

/-- A config collection entry whose `position` value is the falsy integer 0. -/
def dimmerConfigZero : Entry := [("name", .vStr "dimmer"), ("position", .vInt 0)]

/-- A later config collection entry for the same device with `position` 5. -/
def dimmerConfigFive : Entry := [("name", .vStr "dimmer"), ("position", .vInt 5)]

/-- A snapshot in which the dimmer has zwave position 0. -/
def dimmerSnapZero : Snapshot := ⟨[], [dimmerConfigZero]⟩

/-- A replacement snapshot in which the dimmer has zwave position 5. -/
def dimmerSnapFive : Snapshot := ⟨[], [dimmerConfigFive]⟩

/-- C4 counterexample: `zwave_index` fetches position 0 from the first
snapshot, yet the very next access performs a second snapshot lookup and
returns the new snapshot's value 5 — the populated falsy value is
re-fetched, refuting "looked up at most once per instance lifetime". -/
theorem zwave_index_refetched_counterexample :
    ((Switch.init "dimmer").zwave_index dimmerSnapZero).1 = some (Value.vInt 0)
    ∧ ((Switch.init "dimmer").zwave_index dimmerSnapZero).2.2 = true
    ∧ ((((Switch.init "dimmer").zwave_index dimmerSnapZero).2.1).zwave_index
        dimmerSnapFive).2.2 = true
    ∧ ((((Switch.init "dimmer").zwave_index dimmerSnapZero).2.1).zwave_index
        dimmerSnapFive).1 = some (Value.vInt 5) := by
  decide

/-- C4 (amended): `usage_capable` is looked up at most once per instance —
a second access never fetches and returns the remembered boolean — while
`device_uuid`, `device_type`, `zwave_index` and `zwave_uuid` re-fetch on a
later access exactly when the previously returned value was falsy (absent,
`0`, empty string, or `False`); a truthy populated value is never
re-fetched, even across snapshot replacement. -/
theorem lazy_memo_refetch_policy (sw : Switch) (sp : SmartPlug) (snap snap' : Snapshot) :
    (((sw.device_uuid snap).2.1.device_uuid snap').2.2
        = !truthyOpt (sw.device_uuid snap).1)
    ∧ (((sw.device_type snap).2.1.device_type snap').2.2
        = !truthyOpt (sw.device_type snap).1)
    ∧ (((sw.zwave_index snap).2.1.zwave_index snap').2.2
        = !truthyOpt (sw.zwave_index snap).1)
    ∧ (((sw.zwave_uuid snap).2.1.zwave_uuid snap').2.2
        = !truthyOpt (sw.zwave_uuid snap).1)
    ∧ (((sp.usage_capable snap).2.1.usage_capable snap').2.2 = false)
    ∧ (((sp.usage_capable snap).2.1.usage_capable snap').1 = (sp.usage_capable snap).1) := by
  refine ⟨?_, ?_, ?_, ?_, ?_, ?_⟩
  · unfold Switch.device_uuid
    split
    · split <;> simp_all
    · simp_all
  · unfold Switch.device_type
    split
    · split <;> simp_all
    · simp_all
  · unfold Switch.zwave_index
    split
    · split <;> simp_all
    · simp_all
  · unfold Switch.zwave_uuid
    split
    · split <;> simp_all
    · simp_all
  · unfold SmartPlug.usage_capable
    cases h : sp.memo_usage_capable <;> simp [h]
  · unfold SmartPlug.usage_capable
    cases h : sp.memo_usage_capable <;> simp [h]

end Toonapilib

namespace Toonapilib

/-- A lookup miss for one field: the queried collection has no entry named
`name`, or the first matching entry lacks the requested field — the two
silent-absence cases of `_get_value`. -/
def lookupMisses (snap : Snapshot) (config : Bool) (name field : String) : Prop :=
  findDevice snap config name = none ∨
    ∃ item, findDevice snap config name = some item ∧ item.get field = none

/-- `_get_value` returns `None` on a lookup miss. -/
lemma getValue_eq_none_of_misses {snap : Snapshot} {config : Bool} {name field : String}
    (h : lookupMisses snap config name field) : getValue snap name field config = none := by
  unfold getValue
  rcases h with h | ⟨item, hfind, hget⟩
  · rw [h]
  · rw [hfind]
    exact hget

/-- A snapshot where `plug1` appears only in the status collection and
`confonly` only in the config collection. -/
def mixedSnap : Snapshot :=
  ⟨[sampleStatusEntry], [sampleConfigEntry, [("name", .vStr "confonly"), ("devType", .vStr "x")]]⟩

/-- C5: whenever a property's lookup misses — its queried collection has no
entry for the device's name, or the matching entry lacks the requested
field — that status/config read property of `Switch`, `SmartPlug` and
`Light` returns its absence sentinel: `none` for raw values, `false` for the
boolean-coerced properties, and `0` for the capability-gated usage readings
(which also fall back to `none` or `0` when only their own raw field is
missing); all accessors are total functions, so no access raises an
exception. -/
theorem missing_lookup_absent_sentinels (name : String) (snap : Snapshot) :
    (∀ (field : String) (config : Bool),
        lookupMisses snap config name field → getValue snap name field config = none)
    ∧ (lookupMisses snap false name "devUUID" →
        (Switch.init name).device_uuid snap = (none, Switch.init name, true))
    ∧ (lookupMisses snap true name "devType" →
        (Switch.init name).device_type snap = (none, Switch.init name, true))
    ∧ (lookupMisses snap true name "position" →
        (Switch.init name).zwave_index snap = (none, Switch.init name, true))
    ∧ (lookupMisses snap true name "zwUuid" →
        (Switch.init name).zwave_uuid snap = (none, Switch.init name, true))
    ∧ (lookupMisses snap false name "currentState" →
        (Switch.init name).current_state snap = none)
    ∧ (lookupMisses snap false name "isConnected" →
        (Switch.init name).is_connected snap = false)
    ∧ (lookupMisses snap true name "switchLocked" →
        (Switch.init name).is_locked snap = false)
    ∧ (lookupMisses snap true name "inSwitchAll" →
        (Switch.init name).in_switch_all_group snap = false)
    ∧ (lookupMisses snap true name "inSwitchSchedule" →
        (Switch.init name).in_switch_schedule snap = false)
    ∧ (lookupMisses snap true name "usageCapable" →
        (SmartPlug.init name).usage_capable snap = (false, ⟨Switch.init name, some false⟩, true)
        ∧ ((SmartPlug.init name).average_usage snap).1 = some (Value.vInt 0)
        ∧ ((SmartPlug.init name).current_usage snap).1 = some (Value.vInt 0)
        ∧ ((SmartPlug.init name).daily_usage snap).1 = some (Value.vInt 0))
    ∧ (lookupMisses snap false name "avgUsage" → ∀ sp : SmartPlug, sp.name = name →
        ((sp.average_usage snap).1 = none ∨ (sp.average_usage snap).1 = some (Value.vInt 0)))
    ∧ (lookupMisses snap false name "currentUsage" → ∀ sp : SmartPlug, sp.name = name →
        ((sp.current_usage snap).1 = none ∨ (sp.current_usage snap).1 = some (Value.vInt 0)))
    ∧ (lookupMisses snap false name "dayUsage" → ∀ sp : SmartPlug, sp.name = name →
        ((sp.daily_usage snap).1 = none ∨ (sp.daily_usage snap).1 = some (Value.vInt 0)))
    ∧ (lookupMisses snap false name "networkHealthState" →
        (SmartPlug.init name).network_health_state snap = none)
    ∧ (lookupMisses snap true name "quantityGraphUuid" →
        (SmartPlug.init name).quantity_graph_uuid snap = none)
    ∧ (lookupMisses snap true name "flowGraphUuid" →
        (SmartPlug.init name).flow_graph_uuid snap = none)
    ∧ (lookupMisses snap false name "rgbColor" →
        (Light.mk (Switch.init name)).rgb_color snap = none) := by
  refine ⟨fun f c h => getValue_eq_none_of_misses h,
    ?_, ?_, ?_, ?_, ?_, ?_, ?_, ?_, ?_, ?_, ?_, ?_, ?_, ?_, ?_, ?_, ?_⟩
  case refine_10 =>
    intro h
    simp [Switch.init, SmartPlug.init, SmartPlug.usage_capable, SmartPlug.average_usage,
      SmartPlug.current_usage, SmartPlug.daily_usage, truthyOpt, getValue_eq_none_of_misses h]
  case refine_11 =>
    intro h sp hname
    cases hcap : (sp.usage_capable snap).1
    · right
      simp [SmartPlug.average_usage, hcap]
    · left
      simp [SmartPlug.average_usage, hcap, hname, getValue_eq_none_of_misses h]
  case refine_12 =>
    intro h sp hname
    cases hcap : (sp.usage_capable snap).1
    · right
      simp [SmartPlug.current_usage, hcap]
    · left
      simp [SmartPlug.current_usage, hcap, hname, getValue_eq_none_of_misses h]
  case refine_13 =>
    intro h sp hname
    cases hcap : (sp.usage_capable snap).1
    · right
      simp [SmartPlug.daily_usage, hcap]
    · left
      simp [SmartPlug.daily_usage, hcap, hname, getValue_eq_none_of_misses h]
  all_goals
    intro h
    simp [Switch.init, SmartPlug.init, Switch.device_uuid, Switch.device_type,
      Switch.zwave_index, Switch.zwave_uuid, Switch.current_state, Switch.is_connected,
      Switch.is_locked, Switch.in_switch_all_group, Switch.in_switch_schedule,
      SmartPlug.network_health_state, SmartPlug.quantity_graph_uuid,
      SmartPlug.flow_graph_uuid, Light.rgb_color, truthyOpt, getValue_eq_none_of_misses h]

/-- Witness for C5, exercising all three miss shapes: `ghost` is absent from
both collections, `plug1` has entries that lack `networkHealthState` (status)
and `zwUuid` (config), and `confonly` exists only in the config collection
while `is_connected` queries the status one. -/
theorem missing_lookup_absent_sentinels_witness :
    (Switch.init "ghost").is_connected sampleSnap = false
    ∧ (SmartPlug.init "plug1").network_health_state sampleSnap = none
    ∧ (Switch.init "plug1").zwave_uuid sampleSnap = (none, Switch.init "plug1", true)
    ∧ (Switch.init "confonly").is_connected mixedSnap = false := by
  refine ⟨?_, ?_, ?_, ?_⟩
  · exact (missing_lookup_absent_sentinels "ghost" sampleSnap).2.2.2.2.2.2.1
      (Or.inl (by decide))
  · exact (missing_lookup_absent_sentinels "plug1" sampleSnap).2.2.2.2.2.2.2.2.2.2.2.2.2.2.1
      (Or.inr ⟨sampleStatusEntry, by decide, by decide⟩)
  · exact (missing_lookup_absent_sentinels "plug1" sampleSnap).2.2.2.2.1
      (Or.inr ⟨sampleConfigEntry, by decide, by decide⟩)
  · exact (missing_lookup_absent_sentinels "confonly" mixedSnap).2.2.2.2.2.2.1
      (Or.inl (by decide))

/-- C10: a device whose name matches no entry in either collection has
`is_connected` and `is_locked` equal to the boolean `false` (the embedding
types both as `Bool`, mirroring the `True if value else False` coercion),
hence `can_toggle` is false, so `toggle`, `turn_on` and `turn_off` return
`False` with the warning log as their only effect — no HTTP call — and
`status` reads `"off"`. -/
theorem unknown_device_switch_inert (sw : Switch) (toon : ToonSession) (getResp : Entry)
    (putResp : HttpResponse)
    (hs : findDevice toon.status false sw.name = none)
    (hc : findDevice toon.status true sw.name = none) :
    sw.is_connected toon.status = false
    ∧ sw.is_locked toon.status = false
    ∧ sw.can_toggle toon.status = false
    ∧ sw.toggle toon getResp putResp = (false, [Effect.logWarning Switch.lockedWarning], sw)
    ∧ sw.turn_on toon getResp putResp = (false, [Effect.logWarning Switch.lockedWarning], sw)
    ∧ sw.turn_off toon getResp putResp = (false, [Effect.logWarning Switch.lockedWarning], sw)
    ∧ sw.status toon.status = "off" := by
  have hconn : sw.is_connected toon.status = false := by
    unfold Switch.is_connected getValue
    rw [hs]
    rfl
  have hlock : sw.is_locked toon.status = false := by
    unfold Switch.is_locked getValue
    rw [hc]
    rfl
  have hcan : sw.can_toggle toon.status = false := by
    unfold Switch.can_toggle
    rw [hconn, hlock]
    rfl
  refine ⟨hconn, hlock, hcan, ?_, ?_, ?_, ?_⟩
  · unfold Switch.toggle Switch.change_state
    rw [hcan]
    rfl
  · unfold Switch.turn_on Switch.change_state
    rw [hcan]
    rfl
  · unfold Switch.turn_off Switch.change_state
    rw [hcan]
    rfl
  · unfold Switch.status Switch.current_state getValue
    rw [hs]
    rfl

/-- Witness for C10: the `ghost` device is absent from the sample snapshot,
so all write paths are inert and its status reads `"off"`. -/
theorem unknown_device_switch_inert_witness :
    findDevice sampleToon.status false "ghost" = none
    ∧ findDevice sampleToon.status true "ghost" = none
    ∧ ((Switch.init "ghost").is_connected sampleToon.status = false
      ∧ (Switch.init "ghost").is_locked sampleToon.status = false
      ∧ (Switch.init "ghost").can_toggle sampleToon.status = false
      ∧ (Switch.init "ghost").toggle sampleToon sampleGetResp samplePutResp
          = (false, [Effect.logWarning Switch.lockedWarning], Switch.init "ghost")
      ∧ (Switch.init "ghost").turn_on sampleToon sampleGetResp samplePutResp
          = (false, [Effect.logWarning Switch.lockedWarning], Switch.init "ghost")
      ∧ (Switch.init "ghost").turn_off sampleToon sampleGetResp samplePutResp
          = (false, [Effect.logWarning Switch.lockedWarning], Switch.init "ghost")
      ∧ (Switch.init "ghost").status sampleToon.status = "off") :=
  ⟨by decide, by decide,
   unknown_device_switch_inert (Switch.init "ghost") sampleToon sampleGetResp samplePutResp
     (by decide) (by decide)⟩

end Toonapilib
